import Mathlib

/-!
Verification development for the openpoke provider-integration layer.

The Python modules under server/services (whoop/client.py, hevy/client.py,
sms/client.py) and the execution-agent tool adapters
(server/agents/execution_agent/tools/whoop.py) are shallowly embedded here:
file-backed state (token file, API-key file, OAuth-state file) is passed
explicitly, wall-clock time is a natural number of UTC seconds since the
Unix epoch, and network interactions are parameters describing the
provider's response. Python truthiness on optional strings is modelled by
optTruthy; dictionary fields that the code reads with .get are Option
fields.
-/

namespace OpenPoke

/-- Truthiness of an optional string as Python evaluates it:
a missing value and the empty string are falsy, everything else is truthy. -/
def optTruthy : Option String → Bool
  | none => false
  | some s => !s.isEmpty

/-- Configuration fields of the application settings consumed by the Whoop
client (whoop_client_id, whoop_client_secret); each may be unset. -/
structure Settings where
  whoop_client_id : Option String
  whoop_client_secret : Option String
deriving DecidableEq, Repr

/-- The persisted Whoop token record (whoop_token.json): the fields the
client reads.  expires_at is stored as an ISO timestamp in the source and
modelled as absolute UTC seconds. -/
structure TokenData where
  access_token : Option String
  refresh_token : Option String
  expires_at : Option Nat
deriving DecidableEq, Repr

/-- A JSON body returned by the provider's token endpoint; a missing field
of the response dictionary is none. -/
structure RefreshResponse where
  access_token : Option String
  refresh_token : Option String
  expires_in : Option Nat
deriving DecidableEq, Repr

/-- Outcome of the POST to the token endpoint: netError covers a transport
exception and a non-2xx reply (raise_for_status), ok carries the decoded
JSON body of a 2xx reply. -/
inductive RefreshOutcome where
  | netError
  | ok (resp : RefreshResponse)
deriving DecidableEq, Repr

/-- Embedding of whoop/client.py _is_token_expired: a record with a falsy
access_token or no expires_at is expired; otherwise the token counts as
expired when now plus a five-minute margin reaches expires_at. -/
def isTokenExpired (now : Nat) (td : TokenData) : Bool :=
  if !(optTruthy td.access_token) then true
  else match td.expires_at with
    | none => true
    | some e => decide (now + 5 * 60 ≥ e)

/-- Embedding of whoop/client.py _refresh_token.  Input is the stored token
record; result is (returned record, stored record afterwards).  Failure
(no stored record, falsy refresh_token, missing client credentials, network
error or non-2xx) returns none and leaves the store untouched; success
stamps expires_at = now + expires_in (default 3600), keeps the old
refresh_token when the response omits one, and persists the new record. -/
def refreshToken (now : Nat) (s : Settings) (net : RefreshOutcome)
    (stored : Option TokenData) : Option TokenData × Option TokenData :=
  match stored with
  | none => (none, stored)
  | some td =>
    if !(optTruthy td.refresh_token) then (none, stored)
    else if !(optTruthy s.whoop_client_id) || !(optTruthy s.whoop_client_secret) then
      (none, stored)
    else match net with
      | .netError => (none, stored)
      | .ok resp =>
        let newTd : TokenData :=
          { access_token := resp.access_token
            refresh_token :=
              match resp.refresh_token with
              | some r => some r
              | none => td.refresh_token
            expires_at := some (now + resp.expires_in.getD 3600) }
        (some newTd, some newTd)

/-- Result of _get_valid_token: the access token handed back, the stored
record afterwards, and how many refresh attempts were made during the
call. -/
structure GetTokenResult where
  token : Option String
  stored : Option TokenData
  refreshAttempts : Nat
deriving DecidableEq, Repr

/-- Embedding of whoop/client.py _get_valid_token: load the record; absent
record means not connected; an expired record triggers one refresh, whose
failure is reported as no token; otherwise the stored access_token is
returned unchanged. -/
def getValidToken (now : Nat) (s : Settings) (net : RefreshOutcome)
    (stored : Option TokenData) : GetTokenResult :=
  match stored with
  | none => ⟨none, stored, 0⟩
  | some td =>
    if isTokenExpired now td then
      match refreshToken now s net stored with
      | (none, st) => ⟨none, st, 1⟩
      | (some td2, st) => ⟨td2.access_token, st, 1⟩
    else ⟨td.access_token, stored, 0⟩

/-- Outcome of the data request the client sends to the provider: a 2xx
success, an HTTPError with a status code, or any other exception. -/
inductive HttpOutcome where
  | success
  | httpError (code : Nat)
  | otherError
deriving DecidableEq, Repr

/-- The error taxonomy of the request shells: ok (a decoded body is passed
through), a 401 HTTPException (unauthenticated, with its detail string), a
non-401 provider HTTP error (upstream, carrying the status), or a 500
internal error. -/
inductive ReqResult where
  | ok
  | unauthenticated (detail : String)
  | upstream (code : Nat)
  | internal
deriving DecidableEq, Repr

/-- Embedding of whoop/client.py _make_whoop_request, error shell only:
resolve a valid access token (refreshing as _get_valid_token does, which may
rewrite the stored record); no token means a 401 "not connected"; a
provider 401 clears the stored token before surfacing "authentication
expired"; other HTTP errors and exceptions map to upstream and internal.
Result is (error-taxonomy outcome, stored token record afterwards). -/
def makeWhoopRequest (now : Nat) (s : Settings) (net : RefreshOutcome)
    (stored : Option TokenData) (outcome : HttpOutcome) :
    ReqResult × Option TokenData :=
  let g := getValidToken now s net stored
  match g.token with
  | none =>
    (.unauthenticated "Whoop not connected. Please connect your Whoop account first.",
     g.stored)
  | some tok =>
    if tok.isEmpty then
      (.unauthenticated "Whoop not connected. Please connect your Whoop account first.",
       g.stored)
    else match outcome with
      | .success => (.ok, g.stored)
      | .httpError code =>
        if code = 401 then
          (.unauthenticated "Whoop authentication expired. Please reconnect.", none)
        else (.upstream code, g.stored)
      | .otherError => (.internal, g.stored)

/-- Configuration field of the application settings consumed by the Hevy
client (hevy_api_key); may be unset. -/
structure HevySettings where
  hevy_api_key : Option String
deriving DecidableEq, Repr

/-- Embedding of hevy/client.py _get_api_key: the file-stored key wins when
truthy, otherwise the environment-configured key is used. -/
def getApiKey (hs : HevySettings) (fileKey : Option String) : Option String :=
  match fileKey with
  | some k => if k.isEmpty then hs.hevy_api_key else some k
  | none => hs.hevy_api_key

/-- Embedding of hevy/client.py _make_hevy_request, error shell only: no
resolvable key means a 401 "not connected"; a provider 401 surfaces "API
key is invalid" WITHOUT touching the stored key file; other HTTP errors and
exceptions map to upstream and internal.  Result is (error-taxonomy
outcome, stored key file afterwards). -/
def makeHevyRequest (hs : HevySettings) (fileKey : Option String)
    (outcome : HttpOutcome) : ReqResult × Option String :=
  match getApiKey hs fileKey with
  | none =>
    (.unauthenticated "Hevy not connected. Please add your Hevy API key first.", fileKey)
  | some k =>
    if k.isEmpty then
      (.unauthenticated "Hevy not connected. Please add your Hevy API key first.", fileKey)
    else match outcome with
      | .success => (.ok, fileKey)
      | .httpError code =>
        if code = 401 then
          (.unauthenticated "Hevy API key is invalid. Please update your API key.", fileKey)
        else (.upstream code, fileKey)
      | .otherError => (.internal, fileKey)

/-- Removal of leading and trailing whitespace from a character list. -/
def stripChars (l : List Char) : List Char :=
  ((l.dropWhile Char.isWhitespace).reverse.dropWhile Char.isWhitespace).reverse

/-- Model of the Python str.strip() call: drop surrounding whitespace. -/
def pyStrip (s : String) : String := ⟨stripChars s.data⟩

/-- Embedding of whoop/client.py _validate_and_clear_state: a missing state
file fails; otherwise the file is read (its content stripped of surrounding
whitespace), deleted, and compared with the presented state.  Result is
(validation outcome, state file afterwards). -/
def validateAndClearState (presented : String) (stateFile : Option String) :
    Bool × Option String :=
  match stateFile with
  | none => (false, none)
  | some saved => (pyStrip saved == presented, none)

/-- Result classification of connect_whoop (the OAuth callback handler). -/
inductive ConnectStatus where
  | ok
  | csrfError
  | configError
  | exchangeError
deriving DecidableEq, Repr

/-- Full result of connect_whoop: outcome class, the OAuth state file
afterwards, the stored token record afterwards, and whether a token
exchange request was issued to the provider. -/
structure ConnectResult where
  outcome : ConnectStatus
  stateFile : Option String
  stored : Option TokenData
  exchangeAttempted : Bool
deriving DecidableEq, Repr

/-- Embedding of whoop/client.py connect_whoop: validate/consume the CSRF
state first (a mismatch returns a 400 without any token exchange), then
require client credentials, then exchange the code; a successful exchange
stamps expires_at = now + expires_in (default 3600) and persists the new
record, replacing any prior one. -/
def connectWhoop (presented : String) (stateFile : Option String) (s : Settings)
    (now : Nat) (exch : RefreshOutcome) (stored : Option TokenData) : ConnectResult :=
  let v := validateAndClearState presented stateFile
  if !v.1 then ⟨.csrfError, v.2, stored, false⟩
  else if !(optTruthy s.whoop_client_id) || !(optTruthy s.whoop_client_secret) then
    ⟨.configError, v.2, stored, false⟩
  else match exch with
    | .netError => ⟨.exchangeError, v.2, stored, true⟩
    | .ok resp =>
      let td : TokenData :=
        { access_token := resp.access_token
          refresh_token := resp.refresh_token
          expires_at := some (now + resp.expires_in.getD 3600) }
      ⟨.ok, v.2, some td, true⟩

/-- Embedding of whoop/client.py get_recovery_data, parameter building: a
truthy start date of length 10 (bare YYYY-MM-DD) is widened to the start of
the day, a truthy end date of length 10 to the end of the day; anything
else passes through; a falsy date is omitted. -/
def getRecoveryDataParams (start_date end_date : Option String) :
    Option String × Option String :=
  ( match start_date with
    | none => none
    | some sd =>
      if sd.isEmpty then none
      else if sd.length = 10 then some (sd ++ "T00:00:00.000Z") else some sd,
    match end_date with
    | none => none
    | some ed =>
      if ed.isEmpty then none
      else if ed.length = 10 then some (ed ++ "T23:59:59.999Z") else some ed )

/-- Embedding of whoop/client.py get_sleep_data, parameter building (same
widening as recovery). -/
def getSleepDataParams (start_date end_date : Option String) :
    Option String × Option String :=
  ( match start_date with
    | none => none
    | some sd =>
      if sd.isEmpty then none
      else if sd.length = 10 then some (sd ++ "T00:00:00.000Z") else some sd,
    match end_date with
    | none => none
    | some ed =>
      if ed.isEmpty then none
      else if ed.length = 10 then some (ed ++ "T23:59:59.999Z") else some ed )

/-- Embedding of whoop/client.py get_strain_data, parameter building: both
dates are passed through verbatim when truthy; no widening occurs. -/
def getStrainDataParams (start_date end_date : Option String) :
    Option String × Option String :=
  ( match start_date with
    | none => none
    | some sd => if sd.isEmpty then none else some sd,
    match end_date with
    | none => none
    | some ed => if ed.isEmpty then none else some ed )

/-- Embedding of whoop/client.py get_workout_data, parameter building (same
widening as recovery). -/
def getWorkoutDataParams (start_date end_date : Option String) :
    Option String × Option String :=
  ( match start_date with
    | none => none
    | some sd =>
      if sd.isEmpty then none
      else if sd.length = 10 then some (sd ++ "T00:00:00.000Z") else some sd,
    match end_date with
    | none => none
    | some ed =>
      if ed.isEmpty then none
      else if ed.length = 10 then some (ed ++ "T23:59:59.999Z") else some ed )

/-- Embedding of whoop/client.py get_cycles_data, parameter building (same
widening as recovery). -/
def getCyclesDataParams (start_date end_date : Option String) :
    Option String × Option String :=
  ( match start_date with
    | none => none
    | some sd =>
      if sd.isEmpty then none
      else if sd.length = 10 then some (sd ++ "T00:00:00.000Z") else some sd,
    match end_date with
    | none => none
    | some ed =>
      if ed.isEmpty then none
      else if ed.length = 10 then some (ed ++ "T23:59:59.999Z") else some ed )

/-- Seconds in a UTC day. -/
def secondsPerDay : Nat := 86400

/-- Day number (days since 1970-01-01) of a UTC timestamp in seconds; this
is the date part that strftime formats. -/
def dayOf (t : Nat) : Nat := t / secondsPerDay

/-- Gregorian civil date (year, month, day) of a day number counted from
1970-01-01, by the standard days-from-civil inverse algorithm; models the
date held by a Python datetime at that UTC day. -/
def civilFromDays (z : Nat) : Nat × Nat × Nat :=
  let z2 := z + 719468
  let era := z2 / 146097
  let doe := z2 % 146097
  let yoe := (doe - doe / 1460 + doe / 36524 - doe / 146096) / 365
  let y := yoe + era * 400
  let doy := doe - (365 * yoe + yoe / 4 - yoe / 100)
  let mp := (5 * doy + 2) / 153
  let d := doy - (153 * mp + 2) / 5 + 1
  let m := if mp < 10 then mp + 3 else mp - 9
  (if m ≤ 2 then y + 1 else y, m, d)

/-- Zero-padded two-digit decimal rendering. -/
def pad2 (n : Nat) : String := if n < 10 then "0" ++ toString n else toString n

/-- Zero-padded four-digit decimal rendering. -/
def pad4 (n : Nat) : String :=
  if n < 10 then "000" ++ toString n
  else if n < 100 then "00" ++ toString n
  else if n < 1000 then "0" ++ toString n
  else toString n

/-- Rendering of strftime with the YYYY-MM-DD format applied to the civil
date of a day number. -/
def formatYmd (z : Nat) : String :=
  let c := civilFromDays z
  pad4 c.1 ++ "-" ++ pad2 c.2.1 ++ "-" ++ pad2 c.2.2

/-- Embedding of tools/whoop.py _get_default_date_range: format utcnow minus
seven days and utcnow as YYYY-MM-DD strings. -/
def getDefaultDateRange (now : Nat) : String × String :=
  (formatYmd (dayOf (now - 7 * secondsPerDay)), formatYmd (dayOf now))

/-- Embedding of tools/whoop.py _whoop_get_recovery, argument resolution:
when either date argument is falsy, both are replaced by the default range;
the resulting pair is what reaches get_recovery_data. -/
def whoopGetRecoveryArgs (now : Nat) (start_date end_date : Option String) :
    String × String :=
  if !(optTruthy start_date) || !(optTruthy end_date) then getDefaultDateRange now
  else (start_date.getD "", end_date.getD "")

/-- Embedding of tools/whoop.py _whoop_get_sleep, argument resolution. -/
def whoopGetSleepArgs (now : Nat) (start_date end_date : Option String) :
    String × String :=
  if !(optTruthy start_date) || !(optTruthy end_date) then getDefaultDateRange now
  else (start_date.getD "", end_date.getD "")

/-- Embedding of tools/whoop.py _whoop_get_strain, argument resolution. -/
def whoopGetStrainArgs (now : Nat) (start_date end_date : Option String) :
    String × String :=
  if !(optTruthy start_date) || !(optTruthy end_date) then getDefaultDateRange now
  else (start_date.getD "", end_date.getD "")

/-- Embedding of tools/whoop.py _whoop_get_workouts, argument resolution. -/
def whoopGetWorkoutsArgs (now : Nat) (start_date end_date : Option String) :
    String × String :=
  if !(optTruthy start_date) || !(optTruthy end_date) then getDefaultDateRange now
  else (start_date.getD "", end_date.getD "")

/-- Embedding of tools/whoop.py _whoop_get_cycles, argument resolution. -/
def whoopGetCyclesArgs (now : Nat) (start_date end_date : Option String) :
    String × String :=
  if !(optTruthy start_date) || !(optTruthy end_date) then getDefaultDateRange now
  else (start_date.getD "", end_date.getD "")

/-- Result classification of get_hevy_status: not connected, connected with
source environment (no probe), or connected/disconnected after a validation
probe. -/
inductive HevyStatus where
  | notConnected
  | connectedEnv
  | probedConnected
  | probedNotConnected
deriving DecidableEq, Repr

/-- Embedding of hevy/client.py get_hevy_status: no resolvable key means not
connected; a key equal to a truthy environment-configured key is trusted
and reported connected without a probe; any other key is validated by a
probe request whose success decides the report.  Result is (status report,
whether a probe request was issued). -/
def getHevyStatus (hs : HevySettings) (fileKey : Option String)
    (probeSucceeds : Bool) : HevyStatus × Bool :=
  match getApiKey hs fileKey with
  | none => (.notConnected, false)
  | some k =>
    if k.isEmpty then (.notConnected, false)
    else if (hs.hevy_api_key == some k) && optTruthy hs.hevy_api_key then
      (.connectedEnv, false)
    else if probeSucceeds then (.probedConnected, true)
    else (.probedNotConnected, true)

/-- Configuration fields of the application settings consumed by the SMS
client (twilio_account_sid, twilio_auth_token, twilio_phone_number); each
may be unset. -/
structure SmsSettings where
  twilio_account_sid : Option String
  twilio_auth_token : Option String
  twilio_phone_number : Option String
deriving DecidableEq, Repr

/-- The persisted SMS configuration file (sms_config.json): the fields
send_sms reads with .get. -/
structure SmsConfig where
  account_sid : Option String
  auth_token : Option String
  phone_number : Option String
deriving DecidableEq, Repr

/-- Python's a-or-b on optional strings: the first operand when truthy,
otherwise the second. -/
def pyOr (a b : Option String) : Option String := if optTruthy a then a else b

/-- Outcome of the provider's message-create call: success with sid and
message status, or an exception with a message. -/
inductive TwilioOutcome where
  | ok (sid msgStatus : String)
  | err (msg : String)
deriving DecidableEq, Repr

/-- Result of send_sms at its boundary: the success record, the
failure record, or an exception that escapes the function. -/
inductive SmsResult where
  | success (sid msgStatus : String)
  | failure (error : String)
  | raised (error : String)
deriving DecidableEq, Repr

/-- Embedding of sms/client.py send_sms: the sender number resolves from the
environment first, then the stored config; a falsy resolution raises a
ValueError BEFORE the try block, so that exception escapes the function;
inside the try block, missing Twilio credentials and any provider failure
are caught and returned as a failure record. -/
def sendSms (s : SmsSettings) (config : SmsConfig) (twilio : TwilioOutcome) :
    SmsResult :=
  let fromNumber := pyOr s.twilio_phone_number config.phone_number
  if !(optTruthy fromNumber) then .raised "Twilio phone number not configured"
  else
    let accountSid := pyOr s.twilio_account_sid config.account_sid
    let authToken := pyOr s.twilio_auth_token config.auth_token
    if !(optTruthy accountSid) || !(optTruthy authToken) then
      .failure "Twilio credentials not configured"
    else match twilio with
      | .ok sid msgStatus => .success sid msgStatus
      | .err m => .failure m

/-! Helper lemmas shared by several theorems. -/

/-- Truthiness of a present string amounts to its being nonempty. -/
theorem optTruthy_some_iff (a : String) : optTruthy (some a) = true ↔ a ≠ "" := by
  constructor
  · intro h he
    subst he
    exact absurd h (by decide)
  · intro h
    have hb : a.isEmpty = false := by
      cases hb : a.isEmpty
      · rfl
      · exact absurd ((String.isEmpty_iff a).mp hb) h
    simp [optTruthy, hb]

/-- Truthiness of a present string is false exactly for the empty string. -/
theorem optTruthy_some_false_iff (a : String) :
    optTruthy (some a) = false ↔ a = "" := by
  constructor
  · intro h
    by_contra hne
    rw [(optTruthy_some_iff a).mpr hne] at h
    exact absurd h (by decide)
  · intro h
    subst h
    decide

/-- A nonempty string has a false isEmpty flag. -/
theorem isEmpty_false_of_ne (a : String) (h : a ≠ "") : a.isEmpty = false := by
  cases hb : a.isEmpty
  · rfl
  · exact absurd ((String.isEmpty_iff a).mp hb) h

/-- A token record with a truthy access token and a present expiry is
expired exactly when the five-minute margin reaches the expiry. -/
theorem isTokenExpired_of_fields (now : Nat) (td : TokenData) (a : String) (e : Nat)
    (ha : td.access_token = some a) (hne : a ≠ "") (he : td.expires_at = some e) :
    isTokenExpired now td = decide (now + 5 * 60 ≥ e) := by
  have : optTruthy (some a) = true := (optTruthy_some_iff a).mpr hne
  simp [isTokenExpired, ha, he, this]

/-- C2: a read-access-token call on a stored record holding an access token
and an expiry returns the stored token unchanged, with no refresh attempt,
when now plus five minutes is before the expiry; when the margin reaches
the expiry it makes exactly one refresh attempt; with no stored record it
reports not connected with no refresh attempt. -/
theorem c2_read_access_token (now : Nat) (s : Settings) (net : RefreshOutcome)
    (stored : Option TokenData) :
    (∀ td a e, stored = some td → td.access_token = some a → a ≠ "" →
        td.expires_at = some e →
      ((now + 5 * 60 < e →
          getValidToken now s net stored = ⟨some a, stored, 0⟩) ∧
       (now + 5 * 60 ≥ e →
          (getValidToken now s net stored).refreshAttempts = 1))) ∧
    getValidToken now s net none = ⟨none, none, 0⟩ := by
  refine ⟨?_, rfl⟩
  rintro td a e rfl ha hne he
  have hexp := isTokenExpired_of_fields now td a e ha hne he
  constructor
  · intro hlt
    have hfalse : isTokenExpired now td = false := by
      rw [hexp]; simp; omega
    simp [getValidToken, hfalse, ha]
  · intro hge
    have htrue : isTokenExpired now td = true := by
      rw [hexp]; simp [hge]
    simp only [getValidToken, htrue, if_true]
    split <;> rfl

/-- Witness for c2_read_access_token at a concrete fresh token and at the
empty store. -/
theorem c2_read_access_token_witness :
    getValidToken 100 ⟨some "id", some "sec"⟩ .netError
        (some ⟨some "tok", some "ref", some 1000⟩)
      = ⟨some "tok", some ⟨some "tok", some "ref", some 1000⟩, 0⟩ ∧
    getValidToken 100 ⟨some "id", some "sec"⟩ .netError none = ⟨none, none, 0⟩ := by
  have h := c2_read_access_token 100 ⟨some "id", some "sec"⟩ .netError
      (some ⟨some "tok", some "ref", some 1000⟩)
  exact ⟨((h.1 ⟨some "tok", some "ref", some 1000⟩ "tok" 1000 rfl rfl (by decide)
      rfl).1 (by decide)),
    (c2_read_access_token 100 ⟨some "id", some "sec"⟩ .netError none).2⟩

/-- C6: a successful token refresh whose provider response omits the
refresh_token field persists a record whose refresh_token is the previously
stored value unchanged; when the response includes one, the new value
replaces it. -/
theorem c6_refresh_preserves_refresh_token (now : Nat) (s : Settings)
    (resp : RefreshResponse) (td : TokenData) (r : String)
    (hrt : td.refresh_token = some r) (hr : r ≠ "")
    (hid : optTruthy s.whoop_client_id = true)
    (hsec : optTruthy s.whoop_client_secret = true) :
    (resp.refresh_token = none →
      ∃ newTd, refreshToken now s (.ok resp) (some td) = (some newTd, some newTd) ∧
        newTd.refresh_token = some r) ∧
    (∀ nr, resp.refresh_token = some nr →
      ∃ newTd, refreshToken now s (.ok resp) (some td) = (some newTd, some newTd) ∧
        newTd.refresh_token = some nr) := by
  have htr : optTruthy td.refresh_token = true := by
    rw [hrt]; exact (optTruthy_some_iff r).mpr hr
  constructor
  · intro hnone
    refine ⟨{ access_token := resp.access_token
              refresh_token := td.refresh_token
              expires_at := some (now + resp.expires_in.getD 3600) }, ?_, ?_⟩
    · simp [refreshToken, htr, hid, hsec, hnone]
    · simpa using hrt
  · intro nr hsome
    refine ⟨{ access_token := resp.access_token
              refresh_token := some nr
              expires_at := some (now + resp.expires_in.getD 3600) }, ?_, rfl⟩
    simp [refreshToken, htr, hid, hsec, hsome]

/-- Witness for c6_refresh_preserves_refresh_token at a concrete token
record and a response omitting the refresh_token field. -/
theorem c6_refresh_preserves_refresh_token_witness :
    refreshToken 100 ⟨some "id", some "sec"⟩ (.ok ⟨some "newTok", none, some 60⟩)
        (some ⟨some "tok", some "ref", some 1000⟩)
      = (some ⟨some "newTok", some "ref", some 160⟩,
         some ⟨some "newTok", some "ref", some 160⟩) := by
  obtain ⟨newTd, heq, hkeep⟩ := (c6_refresh_preserves_refresh_token 100
      ⟨some "id", some "sec"⟩ ⟨some "newTok", none, some 60⟩
      ⟨some "tok", some "ref", some 1000⟩ "ref"
      rfl (by decide) (by decide) (by decide)).1 rfl
  have hval : newTd = ⟨some "newTok", some "ref", some 160⟩ := by
    have h2 : refreshToken 100 ⟨some "id", some "sec"⟩
        (.ok ⟨some "newTok", none, some 60⟩)
        (some ⟨some "tok", some "ref", some 1000⟩)
        = (some (⟨some "newTok", some "ref", some 160⟩ : TokenData),
           some (⟨some "newTok", some "ref", some 160⟩ : TokenData)) := by decide
    rw [h2] at heq
    exact (Option.some_inj.mp (congrArg Prod.fst heq)).symm
  rw [heq, hval]

/-- C7: every refresh failure (no stored record, falsy stored
refresh_token, missing client credentials, or a network or non-2xx provider
failure) yields no valid token without altering the store and without any
exception surfacing (the embedding is total); the caller then returns
exactly what it returns in the not-connected case. -/
theorem c7_refresh_failure_yields_none (now : Nat) (s : Settings)
    (net : RefreshOutcome) (stored : Option TokenData)
    (h : stored = none
       ∨ (∃ td, stored = some td ∧ optTruthy td.refresh_token = false)
       ∨ optTruthy s.whoop_client_id = false
       ∨ optTruthy s.whoop_client_secret = false
       ∨ net = .netError) :
    (refreshToken now s net stored).1 = none ∧
    (refreshToken now s net stored).2 = stored ∧
    (∀ td, stored = some td → isTokenExpired now td = true →
      (getValidToken now s net stored).token = none ∧
      (getValidToken now s net stored).token
        = (getValidToken now s net none).token) := by
  have hfail : refreshToken now s net stored = (none, stored) := by
    cases stored with
    | none => rfl
    | some td =>
      have h2 : optTruthy td.refresh_token = false
          ∨ optTruthy s.whoop_client_id = false
          ∨ optTruthy s.whoop_client_secret = false
          ∨ net = .netError := by
        rcases h with h0 | ⟨td2, htd2, hrt⟩ | hid | hsec | hn
        · exact absurd h0 (by simp)
        · injection htd2 with he
          subst he
          exact Or.inl hrt
        · exact Or.inr (Or.inl hid)
        · exact Or.inr (Or.inr (Or.inl hsec))
        · exact Or.inr (Or.inr (Or.inr hn))
      rcases h2 with hrt | hid | hsec | hn
      · simp [refreshToken, hrt]
      · cases hrt : optTruthy td.refresh_token <;> simp [refreshToken, hrt, hid]
      · cases hrt : optTruthy td.refresh_token <;>
          cases hid : optTruthy s.whoop_client_id <;>
            simp [refreshToken, hrt, hid, hsec]
      · subst hn
        cases hrt : optTruthy td.refresh_token <;>
          cases hid : optTruthy s.whoop_client_id <;>
            cases hsec : optTruthy s.whoop_client_secret <;>
              simp [refreshToken, hrt, hid, hsec]
  refine ⟨by rw [hfail], by rw [hfail], ?_⟩
  rintro td rfl hexp
  have hg : getValidToken now s net (some td) = ⟨none, some td, 1⟩ := by
    simp [getValidToken, hexp, hfail]
  rw [hg]
  exact ⟨rfl, rfl⟩

/-- Witness for c7_refresh_failure_yields_none at a concrete expired token
whose refresh attempt hits a network failure. -/
theorem c7_refresh_failure_yields_none_witness :
    (refreshToken 5000 ⟨some "id", some "sec"⟩ .netError
        (some ⟨some "tok", some "ref", some 1000⟩)).1 = none ∧
    (getValidToken 5000 ⟨some "id", some "sec"⟩ .netError
        (some ⟨some "tok", some "ref", some 1000⟩)).token
      = (getValidToken 5000 ⟨some "id", some "sec"⟩ .netError none).token := by
  have h := c7_refresh_failure_yields_none 5000 ⟨some "id", some "sec"⟩ .netError
      (some ⟨some "tok", some "ref", some 1000⟩)
      (Or.inr (Or.inr (Or.inr (Or.inr rfl))))
  exact ⟨h.1, (h.2.2 ⟨some "tok", some "ref", some 1000⟩ rfl (by decide)).2⟩

/-- C1 counterexample: a Hevy data request running with the stored key "k"
that receives a provider 401 surfaces Unauthenticated but leaves the stored
credential record in place, refuting the claim that every provider API call
deletes the local credential on a 401. -/
theorem c1_counterexample_hevy_key_kept :
    makeHevyRequest ⟨none⟩ (some "k") (.httpError 401)
      = (.unauthenticated "Hevy API key is invalid. Please update your API key.",
         some "k") ∧
    (makeHevyRequest ⟨none⟩ (some "k") (.httpError 401)).2 ≠ none := by
  decide

/-- C1 amended: a Whoop API call that receives a provider 401 deletes the
stored token record before surfacing Unauthenticated; a Hevy API call that
receives a provider 401 surfaces Unauthenticated (invalid key) while
leaving the stored key file unchanged. -/
theorem c1_amended_401_invalidation (now : Nat) (s : Settings)
    (net : RefreshOutcome) (stored : Option TokenData) (tok : String)
    (htok : (getValidToken now s net stored).token = some tok) (hne : tok ≠ "")
    (hs : HevySettings) (fileKey : Option String) (k : String)
    (hk : getApiKey hs fileKey = some k) (hkne : k ≠ "") :
    makeWhoopRequest now s net stored (.httpError 401)
      = (.unauthenticated "Whoop authentication expired. Please reconnect.", none) ∧
    makeHevyRequest hs fileKey (.httpError 401)
      = (.unauthenticated "Hevy API key is invalid. Please update your API key.",
         fileKey) := by
  constructor
  · have hie : tok.isEmpty = false := by
      cases hb : tok.isEmpty
      · rfl
      · exact absurd ((String.isEmpty_iff tok).mp hb) hne
    simp [makeWhoopRequest, htok, hie]
  · have hie : k.isEmpty = false := by
      cases hb : k.isEmpty
      · rfl
      · exact absurd ((String.isEmpty_iff k).mp hb) hkne
    simp [makeHevyRequest, hk, hie]

/-- Witness for c1_amended_401_invalidation at a concrete fresh Whoop token
and a concrete environment-configured Hevy key. -/
theorem c1_amended_401_invalidation_witness :
    makeWhoopRequest 100 ⟨some "id", some "sec"⟩ .netError
        (some ⟨some "tok", some "ref", some 1000⟩) (.httpError 401)
      = (.unauthenticated "Whoop authentication expired. Please reconnect.", none) ∧
    makeHevyRequest ⟨some "k"⟩ none (.httpError 401)
      = (.unauthenticated "Hevy API key is invalid. Please update your API key.",
         none) :=
  c1_amended_401_invalidation 100 ⟨some "id", some "sec"⟩ .netError
    (some ⟨some "tok", some "ref", some 1000⟩) "tok" (by decide) (by decide)
    ⟨some "k"⟩ none "k" (by decide) (by decide)

/-- The callback handler always leaves the OAuth state file deleted,
whatever the inputs were. -/
theorem connectWhoop_clears_stateFile (pr : String) (sf : Option String)
    (s : Settings) (now : Nat) (exch : RefreshOutcome) (st : Option TokenData) :
    (connectWhoop pr sf s now exch st).stateFile = none := by
  cases sf with
  | none => rfl
  | some saved =>
    cases hmatch : pyStrip saved == pr with
    | false => simp [connectWhoop, validateAndClearState, hmatch]
    | true =>
      simp only [connectWhoop, validateAndClearState, hmatch]
      split
      · rfl
      · split
        · rfl
        · cases exch <;> rfl

/-- C3: the OAuth state nonce is single-use.  After any callback the state
file no longer exists; a callback arriving with no stored nonce (never
issued, or already consumed) fails with the CSRF error and attempts no
token exchange; a callback presenting a state different from the stored
nonce fails the same way; and a second callback run on the state left by a
first callback always fails with the CSRF error. -/
theorem c3_oauth_state_single_use (presented p2 : String)
    (stateFile : Option String) (s : Settings) (now : Nat)
    (exch : RefreshOutcome) (stored st2 : Option TokenData) :
    (connectWhoop presented stateFile s now exch stored).stateFile = none ∧
    (stateFile = none →
      connectWhoop presented stateFile s now exch stored
        = ⟨.csrfError, none, stored, false⟩) ∧
    (∀ saved, stateFile = some saved → pyStrip saved ≠ presented →
      connectWhoop presented stateFile s now exch stored
        = ⟨.csrfError, none, stored, false⟩) ∧
    (connectWhoop p2 (connectWhoop presented stateFile s now exch stored).stateFile
        s now exch st2).outcome = .csrfError := by
  refine ⟨connectWhoop_clears_stateFile presented stateFile s now exch stored,
    ?_, ?_, ?_⟩
  · rintro rfl
    rfl
  · rintro saved rfl hmm
    have hmatch : (pyStrip saved == presented) = false := beq_eq_false_iff_ne.mpr hmm
    simp [connectWhoop, validateAndClearState, hmatch]
  · rw [connectWhoop_clears_stateFile presented stateFile s now exch stored]
    rfl

/-- Witness for c3_oauth_state_single_use at a concrete stored nonce and a
mismatching presented state. -/
theorem c3_oauth_state_single_use_witness :
    (connectWhoop "x" (some "y") ⟨some "id", some "sec"⟩ 0 .netError none).stateFile
      = none ∧
    connectWhoop "x" (some "y") ⟨some "id", some "sec"⟩ 0 .netError none
      = ⟨.csrfError, none, none, false⟩ ∧
    (connectWhoop "z"
        (connectWhoop "x" (some "y") ⟨some "id", some "sec"⟩ 0 .netError none).stateFile
        ⟨some "id", some "sec"⟩ 0 .netError none).outcome = .csrfError := by
  have h := c3_oauth_state_single_use "x" "z" (some "y") ⟨some "id", some "sec"⟩
      0 .netError none none
  exact ⟨h.1, h.2.2.1 "y" rfl (by decide), h.2.2.2⟩

/-- C4 counterexample: the strain fetch passes a bare YYYY-MM-DD date
through unwidened, refuting the claim that every Whoop data-fetch operation
widens bare dates. -/
theorem c4_counterexample_strain_not_widened :
    getStrainDataParams (some "2024-01-05") (some "2024-01-05")
      = (some "2024-01-05", some "2024-01-05") ∧
    getStrainDataParams (some "2024-01-05") (some "2024-01-05")
      ≠ (some "2024-01-05T00:00:00.000Z", some "2024-01-05T23:59:59.999Z") := by
  decide

/-- C4 amended: the recovery, sleep, workout and cycles fetches widen a
supplied length-10 (bare YYYY-MM-DD) start date to T00:00:00.000Z and a
length-10 end date to T23:59:59.999Z, and pass any other supplied date
string through unchanged; the strain fetch passes both supplied dates
through unchanged. -/
theorem c4_amended_date_widening (sd ed : String) (h1 : sd ≠ "") (h2 : ed ≠ "") :
    (sd.length = 10 →
      (getRecoveryDataParams (some sd) (some ed)).1 = some (sd ++ "T00:00:00.000Z") ∧
      (getSleepDataParams (some sd) (some ed)).1 = some (sd ++ "T00:00:00.000Z") ∧
      (getWorkoutDataParams (some sd) (some ed)).1 = some (sd ++ "T00:00:00.000Z") ∧
      (getCyclesDataParams (some sd) (some ed)).1 = some (sd ++ "T00:00:00.000Z")) ∧
    (sd.length ≠ 10 →
      (getRecoveryDataParams (some sd) (some ed)).1 = some sd ∧
      (getSleepDataParams (some sd) (some ed)).1 = some sd ∧
      (getWorkoutDataParams (some sd) (some ed)).1 = some sd ∧
      (getCyclesDataParams (some sd) (some ed)).1 = some sd) ∧
    (ed.length = 10 →
      (getRecoveryDataParams (some sd) (some ed)).2 = some (ed ++ "T23:59:59.999Z") ∧
      (getSleepDataParams (some sd) (some ed)).2 = some (ed ++ "T23:59:59.999Z") ∧
      (getWorkoutDataParams (some sd) (some ed)).2 = some (ed ++ "T23:59:59.999Z") ∧
      (getCyclesDataParams (some sd) (some ed)).2 = some (ed ++ "T23:59:59.999Z")) ∧
    (ed.length ≠ 10 →
      (getRecoveryDataParams (some sd) (some ed)).2 = some ed ∧
      (getSleepDataParams (some sd) (some ed)).2 = some ed ∧
      (getWorkoutDataParams (some sd) (some ed)).2 = some ed ∧
      (getCyclesDataParams (some sd) (some ed)).2 = some ed) ∧
    getStrainDataParams (some sd) (some ed) = (some sd, some ed) := by
  have hie1 := isEmpty_false_of_ne sd h1
  have hie2 := isEmpty_false_of_ne ed h2
  refine ⟨fun h => ?_, fun h => ?_, fun h => ?_, fun h => ?_, ?_⟩
  · simp [getRecoveryDataParams, getSleepDataParams, getWorkoutDataParams,
      getCyclesDataParams, hie1, hie2, h]
  · simp [getRecoveryDataParams, getSleepDataParams, getWorkoutDataParams,
      getCyclesDataParams, hie1, hie2, h]
  · simp [getRecoveryDataParams, getSleepDataParams, getWorkoutDataParams,
      getCyclesDataParams, hie1, hie2, h]
  · simp [getRecoveryDataParams, getSleepDataParams, getWorkoutDataParams,
      getCyclesDataParams, hie1, hie2, h]
  · simp [getStrainDataParams, hie1, hie2]

/-- Witness for c4_amended_date_widening at concrete bare dates. -/
theorem c4_amended_date_widening_witness :
    (getRecoveryDataParams (some "2024-01-05") (some "2024-01-06")).1
      = some "2024-01-05T00:00:00.000Z" ∧
    (getRecoveryDataParams (some "2024-01-05") (some "2024-01-06")).2
      = some "2024-01-06T23:59:59.999Z" ∧
    getStrainDataParams (some "2024-01-05") (some "2024-01-06")
      = (some "2024-01-05", some "2024-01-06") := by
  have h := c4_amended_date_widening "2024-01-05" "2024-01-06"
      (by decide) (by decide)
  refine ⟨?_, ?_, h.2.2.2.2⟩
  · rw [(h.1 (by decide)).1]
    decide
  · rw [(h.2.2.1 (by decide)).1]
    decide

/-- C5: a Whoop tool-adapter fetch invoked with neither date is issued with
the default range: the start date formats the UTC day seven days before
now and the end date formats the current UTC day, a trailing 7-day window
at day granularity. -/
theorem c5_default_window (now : Nat) (h : 7 * 86400 ≤ now) :
    getDefaultDateRange now
      = (formatYmd (dayOf now - 7), formatYmd (dayOf now)) ∧
    whoopGetRecoveryArgs now none none
      = (formatYmd (dayOf now - 7), formatYmd (dayOf now)) ∧
    whoopGetSleepArgs now none none
      = (formatYmd (dayOf now - 7), formatYmd (dayOf now)) ∧
    whoopGetStrainArgs now none none
      = (formatYmd (dayOf now - 7), formatYmd (dayOf now)) ∧
    whoopGetWorkoutsArgs now none none
      = (formatYmd (dayOf now - 7), formatYmd (dayOf now)) ∧
    whoopGetCyclesArgs now none none
      = (formatYmd (dayOf now - 7), formatYmd (dayOf now)) := by
  have hd : dayOf (now - 7 * secondsPerDay) = dayOf now - 7 := by
    unfold dayOf secondsPerDay
    omega
  have hg : getDefaultDateRange now
      = (formatYmd (dayOf now - 7), formatYmd (dayOf now)) := by
    unfold getDefaultDateRange
    rw [hd]
  exact ⟨hg, hg, hg, hg, hg, hg⟩

/-- Witness for c5_default_window at a concrete timestamp
(2023-11-14T22:13:20Z), also evaluating the formatted window. -/
theorem c5_default_window_witness :
    whoopGetRecoveryArgs 1700000000 none none
      = (formatYmd (dayOf 1700000000 - 7), formatYmd (dayOf 1700000000)) ∧
    whoopGetRecoveryArgs 1700000000 none none = ("2023-11-07", "2023-11-14") := by
  have h := c5_default_window 1700000000 (by decide)
  exact ⟨h.2.1, by decide⟩

/-- C10: a Whoop tool-adapter call supplying exactly one of the two dates
discards the supplied date: both arguments reaching the underlying fetch
are the default trailing 7-day window. -/
theorem c10_single_date_discarded (now : Nat) (sd ed : Option String)
    (h : optTruthy sd ≠ optTruthy ed) :
    whoopGetRecoveryArgs now sd ed = getDefaultDateRange now ∧
    whoopGetSleepArgs now sd ed = getDefaultDateRange now ∧
    whoopGetStrainArgs now sd ed = getDefaultDateRange now ∧
    whoopGetWorkoutsArgs now sd ed = getDefaultDateRange now ∧
    whoopGetCyclesArgs now sd ed = getDefaultDateRange now := by
  have hcond : (!(optTruthy sd) || !(optTruthy ed)) = true := by
    cases h1 : optTruthy sd <;> cases h2 : optTruthy ed <;> simp_all
  refine ⟨?_, ?_, ?_, ?_, ?_⟩ <;>
    simp [whoopGetRecoveryArgs, whoopGetSleepArgs, whoopGetStrainArgs,
      whoopGetWorkoutsArgs, whoopGetCyclesArgs, hcond]

/-- Witness for c10_single_date_discarded: a supplied start date with no
end date is discarded in favour of the default range. -/
theorem c10_single_date_discarded_witness :
    whoopGetRecoveryArgs 1700000000 (some "2024-01-05") none
      = getDefaultDateRange 1700000000 :=
  (c10_single_date_discarded 1700000000 (some "2024-01-05") none (by decide)).1

/-- C8 counterexample: with no sender number configured anywhere, send_sms
raises a ValueError past its boundary instead of returning a failure
record, refuting the claim that it never raises. -/
theorem c8_counterexample_send_sms_raises :
    sendSms ⟨none, none, none⟩ ⟨none, none, none⟩ (.err "boom")
      = .raised "Twilio phone number not configured" := by
  decide

/-- C8 amended: whenever a sender number resolves (environment first, then
stored config), send_sms returns either a success record or a failure
record and never lets an exception escape; with no resolvable sender number
it raises a ValueError before entering its try block. -/
theorem c8_amended_send_sms_no_raise (s : SmsSettings) (config : SmsConfig)
    (twilio : TwilioOutcome)
    (h : optTruthy (pyOr s.twilio_phone_number config.phone_number) = true) :
    (∃ sid msgStatus, sendSms s config twilio = .success sid msgStatus) ∨
    (∃ e, sendSms s config twilio = .failure e) := by
  by_cases hc : (!(optTruthy (pyOr s.twilio_account_sid config.account_sid))
      || !(optTruthy (pyOr s.twilio_auth_token config.auth_token))) = true
  · exact Or.inr ⟨"Twilio credentials not configured", by simp [sendSms, h, hc]⟩
  · have hc2 : (!(optTruthy (pyOr s.twilio_account_sid config.account_sid))
        || !(optTruthy (pyOr s.twilio_auth_token config.auth_token))) = false :=
      Bool.not_eq_true _ ▸ eq_false_of_ne_true hc
    cases twilio with
    | ok sid msgStatus => exact Or.inl ⟨sid, msgStatus, by simp [sendSms, h, hc2]⟩
    | err m => exact Or.inr ⟨m, by simp [sendSms, h, hc2]⟩

/-- Witness for c8_amended_send_sms_no_raise at a concrete configured
sender. -/
theorem c8_amended_send_sms_no_raise_witness :
    (∃ sid msgStatus, sendSms ⟨some "sid0", some "tok0", some "+15550"⟩
        ⟨none, none, none⟩ (.ok "SM1" "queued") = .success sid msgStatus) ∨
    (∃ e, sendSms ⟨some "sid0", some "tok0", some "+15550"⟩
        ⟨none, none, none⟩ (.ok "SM1" "queued") = .failure e) :=
  c8_amended_send_sms_no_raise ⟨some "sid0", some "tok0", some "+15550"⟩
    ⟨none, none, none⟩ (.ok "SM1" "queued") (by decide)

/-- C9 counterexample: a user-stored file key equal to the truthy
environment key resolves from the file (it is user-supplied and truthy),
yet the status check issues no probe and reports the environment source,
refuting the claimed probe-iff-user-supplied equivalence. -/
theorem c9_counterexample_file_key_equal_env :
    optTruthy (some "k") = true ∧
    getApiKey ⟨some "k"⟩ (some "k") = some "k" ∧
    getHevyStatus ⟨some "k"⟩ (some "k") true = (.connectedEnv, false) := by
  decide

/-- C9 amended: a key sourced from the environment (no truthy file key) is
reported connected without a probe; for any truthy active key, a probe is
issued exactly when the environment-configured key is not that same
string — so a stored key equal to the environment key is treated as
environment-sourced and skipped. -/
theorem c9_amended_status_probe (hs : HevySettings) (fileKey : Option String)
    (probeSucceeds : Bool) :
    (∀ ek, optTruthy fileKey = false → hs.hevy_api_key = some ek → ek ≠ "" →
      getHevyStatus hs fileKey probeSucceeds = (.connectedEnv, false)) ∧
    (∀ k, getApiKey hs fileKey = some k → k ≠ "" →
      ((getHevyStatus hs fileKey probeSucceeds).2 = true
        ↔ hs.hevy_api_key ≠ some k)) := by
  constructor
  · intro ek hf he hene
    have hie := isEmpty_false_of_ne ek hene
    have hk : getApiKey hs fileKey = some ek := by
      cases fileKey with
      | none => exact he
      | some kk =>
        have hkk : kk = "" := (optTruthy_some_false_iff kk).mp hf
        subst hkk
        have hemp : ("" : String).isEmpty = true := by decide
        simp [getApiKey, hemp, he]
    simp [getHevyStatus, hk, hie, he, optTruthy]
  · intro k hk hkne
    have hie := isEmpty_false_of_ne k hkne
    cases hbeq : hs.hevy_api_key == some k with
    | true =>
      have heq : hs.hevy_api_key = some k := eq_of_beq hbeq
      have htr : optTruthy (some k) = true := (optTruthy_some_iff k).mpr hkne
      simp [getHevyStatus, hk, hie, hbeq, htr, heq]
    | false =>
      have hne : hs.hevy_api_key ≠ some k := by
        intro heq
        rw [heq] at hbeq
        simp at hbeq
      cases probeSucceeds <;> simp [getHevyStatus, hk, hie, hbeq, hne]

/-- Witness for c9_amended_status_probe at a concrete environment key with
no file key, and at a distinct user-stored key. -/
theorem c9_amended_status_probe_witness :
    getHevyStatus ⟨some "envk"⟩ none true = (.connectedEnv, false) ∧
    ((getHevyStatus ⟨some "envk"⟩ (some "userk") true).2 = true
      ↔ (some "envk" : Option String) ≠ some "userk") :=
  ⟨(c9_amended_status_probe ⟨some "envk"⟩ none true).1 "envk" (by decide) rfl
      (by decide),
   (c9_amended_status_probe ⟨some "envk"⟩ (some "userk") true).2 "userk"
      (by decide) (by decide)⟩

end OpenPoke
